import Mathlib

/-!
Verification development for the daily reconciliation pipeline
(`АвтоСверкиДень/auto_main.py`, class `EveryDayAuto`) and the ad-hoc SLA
report (`SLA.py`, class `SLA`).

The embedding is shallow: Python functions become Lean functions, pandas
DataFrames become lists of typed rows (with the schema tracked explicitly
where the code checks column presence dynamically), naive `datetime` values
become a record of day index and clock fields, exceptions become `Except`,
and external effects (the database fetch, the file write, `pd.to_datetime`
parsing) become explicit function parameters so the control flow of the
source is preserved exactly.
-/

/-- A naive wall-clock timestamp, mirroring Python's `datetime`:
`day` counts civil days (day 0 = 1970-01-01, a Thursday), the remaining
fields are the clock-of-day components.  `datetime.replace` is field
update, and subtracting `timedelta(days = k)` is `day := day - k`. -/
structure DateTime where
  day : Int
  hour : Nat
  minute : Nat
  second : Nat
  micro : Nat
  deriving DecidableEq, Repr

/-- Total microseconds since the epoch; naive-`datetime` comparison and
subtraction in Python agree with comparison and subtraction of this. -/
def DateTime.toMicros (t : DateTime) : Int :=
  (((t.day * 24 + (t.hour : Int)) * 60 + (t.minute : Int)) * 60
      + (t.second : Int)) * 1000000 + (t.micro : Int)

instance : LT DateTime := ⟨fun a b => a.toMicros < b.toMicros⟩

instance : LE DateTime := ⟨fun a b => a.toMicros ≤ b.toMicros⟩

instance (a b : DateTime) : Decidable (a < b) :=
  inferInstanceAs (Decidable (a.toMicros < b.toMicros))

instance (a b : DateTime) : Decidable (a ≤ b) :=
  inferInstanceAs (Decidable (a.toMicros ≤ b.toMicros))

/-- Python's `datetime.weekday()`: Monday is `0`.  Day 0 of our epoch is a
Thursday (weekday 3). -/
def DateTime.weekday (t : DateTime) : Int := (t.day + 3) % 7

/-- Add whole hours, carrying into the day (models
`timestamp + pd.to_timedelta(plus, unit='hours')`). -/
def DateTime.addHours (t : DateTime) (p : Nat) : DateTime :=
  { t with day := t.day + ((t.hour + p) / 24 : Nat), hour := (t.hour + p) % 24 }

/-- `EveryDayAuto.get_current_day` (auto_main.py lines 110-139):
`yesterday = today - timedelta(days = 3 if today.weekday() == 0 else 1)`,
then both bounds are `replace(hour=delta_time, minute=0, second=0,
microsecond=0)`.  `delta_time` defaults to 0. -/
def get_current_day (today : DateTime) (delta_time : Nat := 0) :
    DateTime × DateTime :=
  let lookback : Int := if today.weekday = 0 then 3 else 1
  let yesterday : DateTime := { today with day := today.day - lookback }
  ({ yesterday with hour := delta_time, minute := 0, second := 0, micro := 0 },
   { today with hour := delta_time, minute := 0, second := 0, micro := 0 })

/-- The window the Runner actually computes per client: `activate`
(line 507) calls `self.get_current_day()` with no argument, so the
default `delta_time = 0` is always used. -/
def runnerWindow (today : DateTime) : DateTime × DateTime :=
  get_current_day today

/-- A cell of the `status_name` column.  The fetch fills it with the raw
integer status code; `set_new_col` maps it through `STATUS_DICT`
(`pd.Series.map` turns any value without a dictionary entry — including an
already-translated string label — into missing/NaN). -/
inductive StatusVal where
  | code (n : Int)
  | label (s : String)
  | missing
  deriving DecidableEq, Repr

/-- `EveryDayAuto.STATUS_DICT` (auto_main.py lines 46-55). -/
def EveryDayAuto.STATUS_DICT : Int → Option String := fun n =>
  if n = 2 then some "В обработке"
  else if n = 3 then some "Провально"
  else if n = 4 then some "Succeed"
  else if n = 8 then some "Фейл по нашей вине"
  else if n = 10 then some "Отменено"
  else if n = 11 then some "Истек"
  else if n = 12 then some "Reversal"
  else if n = 13 then some "Отмена до реквизитов"
  else none

/-- `SLA.STATUS_DICT` (SLA.py lines 43-46). -/
def SLA.STATUS_DICT : Int → Option String := fun n =>
  if n = 2 then some "В обработке"
  else if n = 3 then some "Провально"
  else if n = 4 then some "Succeed"
  else if n = 8 then some "Фейл по нашей вине"
  else if n = 10 then some "Отменено"
  else if n = 11 then some "Истек"
  else if n = 12 then some "Обнуление"
  else if n = 13 then some "Отмена до реквизитов"
  else none

/-- Modelled from the spec: the spec describes the status labels by English
glosses; "zeroed out" glosses the Russian label "Обнуление" (literally
"zeroing"), the label §9 attributes to the core pipeline for code 12. -/
def zeroedOutLabel : String := "Обнуление"

/-- Modelled from the spec: "reversed" glosses the label "Reversal", the
label §9 attributes to the excluded ad-hoc report for code 12. -/
def reversedLabel : String := "Reversal"

/-- The known status codes (shared key set of both dictionaries). -/
def knownStatusCodes : List Int := [2, 3, 4, 8, 10, 11, 12, 13]

/-- `df['status_name'].map(self.STATUS_DICT)` applied to one cell:
a known integer code becomes its label, anything else becomes missing. -/
def mapStatus (v : StatusVal) : StatusVal :=
  match v with
  | .code n =>
    match EveryDayAuto.STATUS_DICT n with
    | some l => .label l
    | none => .missing
  | _ => .missing

/-- One row of the combined fetch result (the 18 SELECT aliases of
`create_df`, auto_main.py lines 170-220), generic in the type of the two
timestamp columns: the fetch yields them as strings (`toString(...)` in
SQL, nullable), `filter_data_time` re-types them to parsed datetimes. -/
structure RowG (τ : Type) where
  external_id : String
  client_order_id : String
  client_id : Int
  currency_id : Int
  created_at : τ
  accepted_at : τ
  amount : ℚ
  accepted_amount : ℚ
  service_commission : ℚ
  mid_commission : ℚ
  status_name : StatusVal
  comment : String
  type : String
  provodka : String
  mid_id : Int
  client_name : Option String
  currency_name : Option String
  transaction_type : String
  overall_commission : Option ℚ
  deriving DecidableEq, Repr

/-- A fetched / normalized row: timestamps still textual (nullable). -/
abbrev Row := RowG (Option String)

/-- A time-filtered row: timestamps parsed (NaT modelled as `none`). -/
abbrev FRow := RowG (Option DateTime)

/-- Column names of the combined fetch result, in SELECT order. -/
def fetchedCols : List String :=
  ["external_id", "client_order_id", "client_id", "currency_id",
   "created_at", "accepted_at", "amount", "accepted_amount",
   "service_commission", "mid_commission", "status_name", "comment",
   "type", "provodka", "mid_id", "client_name", "currency_name",
   "transaction_type"]

/-- `round(x, 3)` on exact rationals: `round` to the nearest integer of
`1000 * x`, divided back. -/
def round3 (q : ℚ) : ℚ := ((round (q * 1000) : ℤ) : ℚ) / 1000

/-- The two amount-backfill column assignments of `set_new_col`
(auto_main.py lines 263-264), per row and in source order:
first `withdraw` rows get `amount := accepted_amount`, then rows whose
(possibly just-assigned) `amount` is `0` get `amount := accepted_amount`. -/
def fixAmount (r : Row) : Row :=
  let r1 := if r.transaction_type = "withdraw"
    then { r with amount := r.accepted_amount } else r
  if r1.amount = 0 then { r1 with amount := r1.accepted_amount } else r1

/-- Status translation step of `set_new_col` (line 267), per row. -/
def translateRow (r : Row) : Row :=
  { r with status_name := mapStatus r.status_name }

/-- The commission formula of `set_new_col` (lines 270-272):
`((mid_commission + service_commission) * (accepted_amount / 100)).round(3)`. -/
def overallOf (r : RowG τ) : ℚ :=
  round3 ((r.mid_commission + r.service_commission) * (r.accepted_amount / 100))

/-- Commission step of `set_new_col`, per row. -/
def commissionRow (r : Row) : Row :=
  { r with overall_commission := some (overallOf r) }

/-- The row-local part of `set_new_col`, steps in source order. -/
def normRow (r : Row) : Row := commissionRow (translateRow (fixAmount r))

/-- `df.drop_duplicates('external_id')` with the default `keep='first'`:
keep each row whose `external_id` has not been seen yet. -/
def dedupExternal : List Row → List String → List Row
  | [], _ => []
  | r :: rs, seen =>
    if r.external_id ∈ seen then dedupExternal rs seen
    else r :: dedupExternal rs (r.external_id :: seen)

/-- Ordering used by `sort_values` on a nullable string column: pandas
places NaN last (`na_position='last'`); non-null cells compare as
strings. -/
def keyLE : Option String → Option String → Bool
  | _, none => true
  | none, some _ => false
  | some a, some b => decide (a ≤ b)

/-- The cell of the configured sort/window column of a raw row.  The
configured `columns_filter` is one of the two timestamp fields. -/
def rowKey (cf : String) (r : Row) : Option String :=
  if cf = "created_at" then r.created_at else r.accepted_at

/-- Row comparison induced by the configured column, as a relation. -/
def rowLE (cf : String) (a b : Row) : Prop :=
  keyLE (rowKey cf a) (rowKey cf b) = true

instance (cf : String) : DecidableRel (rowLE cf) := fun _ _ =>
  inferInstanceAs (Decidable (_ = true))

instance (cf : String) : IsTotal Row (rowLE cf) := by
  constructor
  intro a b
  unfold rowLE keyLE
  rcases rowKey cf a with _ | x <;> rcases rowKey cf b with _ | y
  · exact Or.inl rfl
  · exact Or.inr rfl
  · exact Or.inl rfl
  · rcases le_total x y with h | h
    · exact Or.inl (decide_eq_true h)
    · exact Or.inr (decide_eq_true h)

instance (cf : String) : IsTrans Row (rowLE cf) := by
  constructor
  intro a b c
  unfold rowLE keyLE
  rcases rowKey cf a with _ | x <;> rcases rowKey cf b with _ | y <;>
    rcases rowKey cf c with _ | z <;> intro h1 h2
  · rfl
  · exact absurd h2 Bool.false_ne_true
  · rfl
  · exact absurd h1 Bool.false_ne_true
  · rfl
  · exact absurd h2 Bool.false_ne_true
  · rfl
  · exact decide_eq_true (le_trans (of_decide_eq_true h1) (of_decide_eq_true h2))

/-- `df.sort_values(self.col_filter)`, modelled as a comparison sort on
the configured column.  Caveat: the pandas default (`kind='quicksort'`)
is an unstable sort, while `List.insertionSort` is stable, so this model
fixes an order among rows tied on the key that the program does not
guarantee.  Results about `set_new_col` must therefore rely only on the
properties every comparison sort shares — membership/permutation and
sortedness on the key — never on the relative order of tied rows. -/
def sortRows (cf : String) (l : List Row) : List Row :=
  List.insertionSort (rowLE cf) l

/-- Exceptions that cross component boundaries in the source. -/
inductive Err where
  | keyError (k : String)
  | indexError
  | attributeError
  | fileNotFound (p : String)
  | ioError (msg : String)
  deriving DecidableEq, Repr

instance {ε α : Type} [DecidableEq ε] [DecidableEq α] :
    DecidableEq (Except ε α) := fun a b =>
  match a, b with
  | .error x, .error y =>
    if h : x = y then .isTrue (congrArg Except.error h)
    else .isFalse (fun c => h (Except.error.inj c))
  | .ok x, .ok y =>
    if h : x = y then .isTrue (congrArg Except.ok h)
    else .isFalse (fun c => h (Except.ok.inj c))
  | .error _, .ok _ => .isFalse Except.noConfusion
  | .ok _, .error _ => .isFalse Except.noConfusion

/-- `EveryDayAuto.set_new_col` (auto_main.py lines 234-285): amount
backfill, status translation, commission, dedup by `external_id`, sort by
the configured column, re-index (a no-op on lists).  Sorting by a column
that is not one of the two timestamp fields would raise `KeyError`
(`try`/`except` re-raises every failure, line 284). -/
def set_new_col (cf : String) (df : List Row) : Except Err (List Row) :=
  if cf = "accepted_at" ∨ cf = "created_at" then
    .ok (sortRows cf (dedupExternal (df.map normRow) []))
  else .error (.keyError cf)

/-- Second-pass effect of the status map: every already-translated row
loses its label (used to state what re-running normalize does). -/
def killStatus (r : Row) : Row := { r with status_name := .missing }

/-- Per-client configuration values of `EveryDayAuto.CLIENTS`. -/
structure ClientConfig where
  columns_filter : String
  plus_time : Nat
  deriving DecidableEq, Repr

/-- `EveryDayAuto.CLIENTS` (auto_main.py lines 35-44), in source
(insertion) order. -/
def EveryDayAuto.CLIENTS : List (Int × ClientConfig) :=
  [(1282, ⟨"accepted_at", 0⟩),
   (1130, ⟨"accepted_at", 0⟩),
   (606,  ⟨"accepted_at", 0⟩),
   (1359, ⟨"accepted_at", 0⟩),
   (741,  ⟨"accepted_at", 0⟩),
   (1160, ⟨"accepted_at", 0⟩),
   (1235, ⟨"accepted_at", 3⟩),
   (1352, ⟨"accepted_at", 3⟩)]

/-- `self.CLIENTS.get(un_c)`. -/
def clientsLookup (n : Int) : Option ClientConfig :=
  EveryDayAuto.CLIENTS.lookup n

/-- One left-to-right pass of `re.sub(r'\.\d+', '', value)`: every
occurrence of a dot followed by at least one digit is deleted (together
with the maximal digit run after the dot), everything else is kept.  The
Boolean state records being inside a digit run that is being deleted. -/
def stripGo : List Char → Bool → List Char
  | [], _ => []
  | c :: cs, inRun =>
    if inRun ∧ c.isDigit then stripGo cs true
    else if c = '.' ∧ (cs.head?.map Char.isDigit).getD false then
      stripGo cs true
    else c :: stripGo cs false

/-- `EveryDayAuto.remove_microseconds` (auto_main.py lines 289-314):
`None`/NaN stays missing, otherwise the `\.\d+` pattern is deleted. -/
def remove_microseconds (v : Option String) : Option String :=
  v.map fun s => String.mk (stripGo s.data false)

/-- The per-row timestamp rework of `filter_data_time` (lines 355-358):
strip sub-second fractions, parse (`pd.to_datetime(..., errors='coerce')`,
supplied as the explicit parameter `parse`; unparseable becomes NaT =
`none`), then add the client's `plus_time` hours (`NaT + delta = NaT`). -/
def transformRow (parse : String → Option DateTime) (plus : Nat)
    (r : Row) : FRow :=
  { r with
    created_at :=
      ((remove_microseconds r.created_at).bind parse).map (·.addHours plus)
    accepted_at :=
      ((remove_microseconds r.accepted_at).bind parse).map (·.addHours plus) }

/-- The timestamp rework applied to the whole frame. -/
def transformRows (parse : String → Option DateTime) (plus : Nat)
    (df : List Row) : List FRow :=
  df.map (transformRow parse plus)

/-- `df[filter_column]` on a reworked row: only the two timestamp columns
exist as datetime columns; any other name raises `KeyError`. -/
def timeColFn (c : String) : Except Err (FRow → Option DateTime) :=
  if c = "accepted_at" then .ok (·.accepted_at)
  else if c = "created_at" then .ok (·.created_at)
  else .error (.keyError c)

/-- `(df[col] >= start) & (df[col] < end)` on one cell: NaT compares
false. -/
def inWindow (s e : DateTime) : Option DateTime → Bool
  | some t => decide (s ≤ t) && decide (t < e)
  | none => false

/-- `pd.Series.unique`: distinct values in order of first occurrence
(`seen` accumulates the values already emitted). -/
def uniqueAux : List (Option String) → List (Option String) → List (Option String)
  | [], _ => []
  | x :: xs, seen =>
    if x ∈ seen then uniqueAux xs seen else x :: uniqueAux xs (x :: seen)

/-- `self.DF['client_name'].unique()`. -/
def uniqueList (l : List (Option String)) : List (Option String) :=
  uniqueAux l []

/-- `unique_clients[0] if len(unique_clients) == 1 else "DEFAULT"`
(auto_main.py line 368).  A `none` result models the NaN display name a
fully-null single-valued column would yield. -/
def resolveName (ns : List (Option String)) : Option String :=
  match uniqueList ns with
  | [v] => v
  | _ => some "DEFAULT"

/-- `EveryDayAuto.filter_data_time` (auto_main.py lines 317-378).  The
`try` block first reads `df.client_id.unique()[0]` (IndexError on an
empty frame) and looks it up in `CLIENTS` (`None.get` → AttributeError
when absent); then timestamps are reworked, rows are kept when the
configured column lies in `[start_date, end_date)`, the display name is
resolved on those rows, and finally only `status_name == 'Succeed'`
rows remain.  Every exception is re-raised (line 376). -/
def filter_data_time (parse : String → Option DateTime)
    (start_date end_date : DateTime) (df : List Row) (filter_column : String) :
    Except Err (List FRow × Option String) :=
  match (df.map (·.client_id)).head? with
  | none => .error .indexError
  | some un_c =>
    match clientsLookup un_c with
    | none => .error .attributeError
    | some cfg =>
      match timeColFn filter_column with
      | .error e => .error e
      | .ok getCol =>
        let wdf := (transformRows parse cfg.plus_time df).filter
          (fun r => inWindow start_date end_date (getCol r))
        let name := resolveName (wdf.map (·.client_name))
        .ok (wdf.filter (fun r => decide (r.status_name = .label "Succeed")), name)

/-- A DataFrame together with its pandas-level schema, for the component
that checks column presence dynamically (`result_save`). -/
structure Frame where
  cols : List String
  rows : List FRow
  deriving DecidableEq, Repr

/-- `selected_columns` of `result_save` (auto_main.py lines 419-423). -/
def selected_columns : List String :=
  ["external_id", "client_order_id", "client_name", "currency_name",
   "created_at", "accepted_at", "amount", "overall_commission",
   "status_name", "transaction_type", "comment", "accepted_amount"]

/-- `EveryDayAuto.FILE_PREFIXES` (auto_main.py lines 57-62). -/
def EveryDayAuto.FILE_PREFIXES : List (String × String) :=
  [("P2PW", "Report_Transactions"),
   ("WW", "Report_Transactions_UZS"),
   ("LR", "Report_Transactions_LR"),
   ("P2P", "Report_Transactions_NEW")]

/-- `self.client_name in self.FILE_PREFIXES` plus the prefix lookup; a NaN
client name (`none`) is never a dictionary key. -/
def filePrefixOf (client_name : Option String) : Option String :=
  client_name.bind fun n => EveryDayAuto.FILE_PREFIXES.lookup n

/-- The `dd.mm.yyyy-dd.mm.yyyy` range in the file name, abstracted to an
injective rendering of the two day numbers (`strftime`'s civil-calendar
formatting is immaterial to every claim here). -/
def fmtRange (s e : DateTime) : String :=
  toString s.day ++ "-" ++ toString e.day

/-- What `result_save` did: one of its three reported early returns, or a
written file. -/
inductive SaveOutcome where
  | skippedEmpty
  | skippedMissingCols (missing : List String)
  | skippedNoClientId
  | wrote (file : String)
  deriving DecidableEq, Repr

/-- Files produced by an outcome. -/
def writtenFiles : SaveOutcome → List String
  | .wrote f => [f]
  | _ => []

/-- `EveryDayAuto.result_save` (auto_main.py lines 382-467).  Checks, in
source order: empty frame (warn + return), missing required columns
(error + return), `client_id` column absent so the id cannot be resolved
(error + return).  Then the output path is chosen by whether the resolved
client name is a `FILE_PREFIXES` key (CSV with epoch timestamps) or not
(xlsx); the actual write is the external effect `fsWrite`, whose failure
is logged and re-raised (lines 455-457 and 465-467).  The +1-second nudge
and epoch conversion touch only file content, which `fsWrite` abstracts. -/
def result_save (fsWrite : String → Except Err Unit) (DF : Frame)
    (client_name : Option String) (start_date end_date : DateTime) :
    Except Err SaveOutcome :=
  match DF.rows with
  | [] => .ok .skippedEmpty
  | _ :: _ =>
    let missing := selected_columns.filter (fun c => decide (c ∉ DF.cols))
    if missing ≠ [] then .ok (.skippedMissingCols missing)
    else if "client_id" ∈ DF.cols then
      let fname :=
        match filePrefixOf client_name with
        | some pref => pref ++ " " ++ fmtRange start_date end_date ++ ".csv"
        | none =>
          (client_name.getD "nan") ++ "_" ++ fmtRange start_date end_date
            ++ "_2024.xlsx"
      match fsWrite fname with
      | .ok _ => .ok (.wrote fname)
      | .error e => .error e
    else .ok .skippedNoClientId

/-- `EveryDayAuto.create_df` (auto_main.py lines 141-230): the extraction
query is the external effect `fetchRaw`; any failure is logged and an
empty frame is returned (lines 225-228). -/
def create_df (fetchRaw : Int → DateTime → DateTime → Except Err (List Row))
    (idClient : Int) (start_d stop_d : DateTime) : List Row :=
  match fetchRaw idClient start_d stop_d with
  | .ok df => df
  | .error _ => []

/-- The schema of the frame flowing into `result_save` during a run: the
18 fetched columns plus the derived `overall_commission`. -/
def runnerFrame (rows : List FRow) : Frame :=
  ⟨fetchedCols ++ ["overall_commission"], rows⟩

/-- What one client's loop iteration produced when it did not raise. -/
inductive ClientResult where
  | noData
  | done (o : SaveOutcome)
  deriving DecidableEq, Repr

/-- One iteration of the `activate` loop (auto_main.py lines 500-522) for
one configured client: set `col_filter`, compute the window (no argument —
the offset default 0), fetch, skip when empty, then normalize → filter →
save, each of which re-raises its failures; the loop body itself catches
nothing. -/
def processClient (today : DateTime) (parse : String → Option DateTime)
    (fsWrite : String → Except Err Unit)
    (fetchRaw : Int → DateTime → DateTime → Except Err (List Row))
    (cid : Int) (config : ClientConfig) : Except Err ClientResult :=
  let col_filter := config.columns_filter
  let w := runnerWindow today
  let df := create_df fetchRaw cid w.1 w.2
  if df.isEmpty then .ok .noData
  else
    match set_new_col col_filter df with
    | .error e => .error e
    | .ok df2 =>
      match filter_data_time parse w.1 w.2 df2 col_filter with
      | .error e => .error e
      | .ok (final, name) =>
        match result_save fsWrite (runnerFrame final) name w.1 w.2 with
        | .error e => .error e
        | .ok o => .ok (.done o)

/-- The `for client_id, config in self.CLIENTS.items()` loop: clients are
processed sequentially; an uncaught exception ends the loop at once.  The
result is the per-client trace of the iterations that completed, paired
with the exception that escaped the loop, if any. -/
def runOn (today : DateTime) (parse : String → Option DateTime)
    (fsWrite : String → Except Err Unit)
    (fetchRaw : Int → DateTime → DateTime → Except Err (List Row)) :
    List (Int × ClientConfig) → List (Int × ClientResult) × Option Err
  | [] => ([], none)
  | (cid, config) :: rest =>
    match processClient today parse fsWrite fetchRaw cid config with
    | .error e => ([], some e)
    | .ok r =>
      let t := runOn today parse fsWrite fetchRaw rest
      ((cid, r) :: t.1, t.2)

/-- `EveryDayAuto.activate`: the loop over the configured client map. -/
def activate (today : DateTime) (parse : String → Option DateTime)
    (fsWrite : String → Except Err Unit)
    (fetchRaw : Int → DateTime → DateTime → Except Err (List Row)) :
    List (Int × ClientResult) × Option Err :=
  runOn today parse fsWrite fetchRaw EveryDayAuto.CLIENTS

/-- The filesystem as seen by the module prologue: the set of existing
directories, and the files each holds. -/
structure FS where
  dirs : List String
  files : List (String × String)
  deriving DecidableEq, Repr

/-- `shutil.rmtree(path)`: removes the directory and everything inside
it; raises `FileNotFoundError` when the directory does not exist
(no `ignore_errors`). -/
def rmtree (path : String) (fs : FS) : Except Err FS :=
  if path ∈ fs.dirs then
    .ok ⟨fs.dirs.filter (fun d => decide (d ≠ path)),
         fs.files.filter (fun f => decide (f.1 ≠ path))⟩
  else .error (.fileNotFound path)

/-- Observable milestones of the module prologue, in order. -/
inductive Event where
  | removedOutputDir
  | configuredLogging
  | clientDone (cid : Int) (r : ClientResult)
  | runAborted (e : Err)
  deriving DecidableEq, Repr

/-- The events of the `activate` loop. -/
def activateEvents (t : List (Int × ClientResult) × Option Err) : List Event :=
  t.1.map (fun p => Event.clientDone p.1 p.2)
    ++ (match t.2 with | some e => [Event.runAborted e] | none => [])

/-- Module top level of auto_main.py: line 14 runs
`shutil.rmtree("saveАвто")` before the logging configuration (lines
16-31) and before `AUTO = EveryDayAuto()` (line 526) instantiates the
class and runs `activate`.  If `rmtree` raises, the module dies there:
nothing else happens. -/
def moduleRun (fs : FS) (today : DateTime) (parse : String → Option DateTime)
    (fsWrite : String → Except Err Unit)
    (fetchRaw : Int → DateTime → DateTime → Except Err (List Row)) :
    Except Err (FS × List Event) :=
  match rmtree "saveАвто" fs with
  | .error e => .error e
  | .ok fs1 =>
    .ok (fs1, Event.removedOutputDir :: Event.configuredLogging ::
      activateEvents (activate today parse fsWrite fetchRaw))

/-- A concrete non-Monday run instant: day 19500 ((19500+3) % 7 = 1). -/
def sampleToday : DateTime := ⟨19500, 9, 30, 0, 0⟩

/-- A concrete Monday run instant: day 11 ((11+3) % 7 = 0). -/
def sampleMonday : DateTime := ⟨11, 9, 30, 0, 0⟩

/-- `runnerWindow sampleToday` start: the previous day at 00:00:00. -/
def sampleStart : DateTime := ⟨19499, 0, 0, 0, 0⟩

/-- `runnerWindow sampleToday` end: the run day at 00:00:00. -/
def sampleEnd : DateTime := ⟨19500, 0, 0, 0, 0⟩

/-- One concrete fetched row for configured client 1282: status code 4,
accepted inside the sample window. -/
def sampleRow : Row :=
  { external_id := "A1"
    client_order_id := "co-1"
    client_id := 1282
    currency_id := 1
    created_at := some "2023-05-22 10:00:00.123"
    accepted_at := some "2023-05-22 10:00:00.123"
    amount := 100
    accepted_amount := 100
    service_commission := 1
    mid_commission := 2
    status_name := .code 4
    comment := ""
    type := "pay"
    provodka := ""
    mid_id := 5
    client_name := some "TestClient"
    currency_name := some "USD"
    transaction_type := "invoice"
    overall_commission := none }

/-- A concrete `pd.to_datetime` stand-in: it recognises exactly the
timestamp string of `sampleRow` (sub-seconds already stripped). -/
def sampleParse : String → Option DateTime := fun s =>
  if s = "2023-05-22 10:00:00" then some ⟨19499, 10, 0, 0, 0⟩ else none

/-- A file write that always fails with an I/O error. -/
def failingWrite : String → Except Err Unit := fun _ =>
  .error (.ioError "disk full")

/-- A file write that always succeeds. -/
def okWrite : String → Except Err Unit := fun _ => .ok ()

/-- A fetch effect: one row for client 1282, nothing for the others. -/
def sampleFetch : Int → DateTime → DateTime → Except Err (List Row) :=
  fun cid _ _ => if cid = 1282 then .ok [sampleRow] else .ok []

/-- A fetch effect whose query always fails. -/
def failingFetch : Int → DateTime → DateTime → Except Err (List Row) :=
  fun _ _ _ => .error (.ioError "db down")

/-- An `FS` in which the output directory exists and holds a stale report. -/
def sampleFS : FS :=
  ⟨["saveАвто"], [("saveАвто", "old_report.xlsx")]⟩

/-- An `FS` in which the output directory does not exist. -/
def emptyFS : FS := ⟨[], []⟩

/-- An empty frame with the full runner schema. -/
def emptyFrame : Frame := ⟨fetchedCols ++ ["overall_commission"], []⟩

theorem DateTime.lt_def (a b : DateTime) : a < b ↔ a.toMicros < b.toMicros :=
  Iff.rfl

theorem DateTime.le_def (a b : DateTime) : a ≤ b ↔ a.toMicros ≤ b.toMicros :=
  Iff.rfl

theorem round3_nonneg (q : ℚ) (hq : 0 ≤ q) : 0 ≤ round3 q := by
  unfold round3
  have h1 : (0 : ℚ) ≤ q * 1000 := by positivity
  have h2 : (0 : ℤ) ≤ round (q * 1000) := by
    rw [round_eq]
    exact Int.floor_nonneg.2 (by linarith)
  have h3 : (0 : ℚ) ≤ ((round (q * 1000) : ℤ) : ℚ) := by exact_mod_cast h2
  positivity

/-- Claim C4: for every `now` (and any hour offset), the computed window
is exactly 1 day long when `now` is not a Monday (Python weekday 0, the
first weekday of the 7-day week), exactly 3 days long when it is, and in
both cases `start < end`. -/
theorem window_length_and_order (today : DateTime) (delta_time : Nat) :
    (today.weekday ≠ 0 →
      (get_current_day today delta_time).2.toMicros
        - (get_current_day today delta_time).1.toMicros = 86400000000)
    ∧ (today.weekday = 0 →
      (get_current_day today delta_time).2.toMicros
        - (get_current_day today delta_time).1.toMicros = 3 * 86400000000)
    ∧ (get_current_day today delta_time).1 < (get_current_day today delta_time).2 := by
  unfold get_current_day
  by_cases h : today.weekday = 0 <;>
    simp only [h, if_pos, if_neg, ite_true, ite_false, not_true, not_false_iff,
      DateTime.lt_def, DateTime.toMicros] <;>
    refine ⟨?_, ?_, ?_⟩ <;> intros <;> first | omega | simp_all

/-- Witness for C4: evaluated at a concrete Monday and non-Monday. -/
theorem window_length_and_order_witness :
    (sampleToday.weekday ≠ 0
      ∧ (get_current_day sampleToday 0).2.toMicros
          - (get_current_day sampleToday 0).1.toMicros = 86400000000)
    ∧ (sampleMonday.weekday = 0
      ∧ (get_current_day sampleMonday 0).2.toMicros
          - (get_current_day sampleMonday 0).1.toMicros = 3 * 86400000000)
    ∧ (get_current_day sampleToday 0).1 < (get_current_day sampleToday 0).2 :=
  ⟨⟨by decide, (window_length_and_order sampleToday 0).1 (by decide)⟩,
   ⟨by decide, (window_length_and_order sampleMonday 0).2.1 (by decide)⟩,
   (window_length_and_order sampleToday 0).2.2⟩

/-- Counterexample for C2: client 1235 is configured with
`plus_time = 3`, yet the window the Runner computes for it (as for every
client) has hour 0 at both ends — `activate` never passes the offset to
`get_current_day`. -/
theorem runner_window_offset_counterexample :
    ((1235 : Int), ClientConfig.mk "accepted_at" 3) ∈ EveryDayAuto.CLIENTS
    ∧ (runnerWindow sampleToday).1.hour = 0
    ∧ (runnerWindow sampleToday).2.hour = 0
    ∧ ((runnerWindow sampleToday).1.hour : Nat) ≠ 3 := by
  decide

/-- Amended C2: for every configured client the Runner's window has both
hours equal to 0 (the `delta_time` default), not to the client's
`plus_time`; minutes, seconds and fractions are zeroed as claimed.  The
client offset is applied to the record timestamps inside
`filter_data_time` instead. -/
theorem runner_window_hour_zero (today : DateTime) (cid : Int)
    (config : ClientConfig) (_h : (cid, config) ∈ EveryDayAuto.CLIENTS) :
    ((runnerWindow today).1.hour = 0 ∧ (runnerWindow today).1.minute = 0
      ∧ (runnerWindow today).1.second = 0 ∧ (runnerWindow today).1.micro = 0)
    ∧ ((runnerWindow today).2.hour = 0 ∧ (runnerWindow today).2.minute = 0
      ∧ (runnerWindow today).2.second = 0 ∧ (runnerWindow today).2.micro = 0) :=
  ⟨⟨rfl, rfl, rfl, rfl⟩, ⟨rfl, rfl, rfl, rfl⟩⟩

/-- Witness for the amended C2, at client 1282 and the sample instant. -/
theorem runner_window_hour_zero_witness :
    ((1282 : Int), ClientConfig.mk "accepted_at" 0) ∈ EveryDayAuto.CLIENTS
    ∧ (((runnerWindow sampleToday).1.hour = 0
        ∧ (runnerWindow sampleToday).1.minute = 0
        ∧ (runnerWindow sampleToday).1.second = 0
        ∧ (runnerWindow sampleToday).1.micro = 0)
      ∧ ((runnerWindow sampleToday).2.hour = 0
        ∧ (runnerWindow sampleToday).2.minute = 0
        ∧ (runnerWindow sampleToday).2.second = 0
        ∧ (runnerWindow sampleToday).2.micro = 0)) :=
  ⟨by decide, runner_window_hour_zero sampleToday 1282 ⟨"accepted_at", 0⟩ (by decide)⟩

/-- Counterexample for C8: the core pipeline's dictionary maps code 12 to
"Reversal" (the "reversed" label) and the ad-hoc SLA report maps it to
"Обнуление" (the "zeroed out" label) — the opposite of what the claim
attributes to each. -/
theorem status12_counterexample :
    EveryDayAuto.STATUS_DICT 12 = some reversedLabel
    ∧ SLA.STATUS_DICT 12 = some zeroedOutLabel
    ∧ reversedLabel ≠ zeroedOutLabel := by
  decide

/-- Amended C8: core maps 12 to "Reversal", the ad-hoc report maps 12 to
"Обнуление"; every other code gets the same value from both dictionaries,
and every code outside the known set maps to missing in both (the `map`
lookup never raises). -/
theorem status_dictionaries_agree_except_12 :
    EveryDayAuto.STATUS_DICT 12 = some "Reversal"
    ∧ SLA.STATUS_DICT 12 = some "Обнуление"
    ∧ (∀ n : Int, n ≠ 12 → EveryDayAuto.STATUS_DICT n = SLA.STATUS_DICT n)
    ∧ (∀ n : Int, n ∉ knownStatusCodes →
        EveryDayAuto.STATUS_DICT n = none ∧ SLA.STATUS_DICT n = none) := by
  refine ⟨by decide, by decide, ?_, ?_⟩
  · intro n hn
    unfold EveryDayAuto.STATUS_DICT SLA.STATUS_DICT
    split_ifs <;> rfl
  · intro n hn
    simp only [knownStatusCodes, List.mem_cons, List.not_mem_nil, or_false,
      not_or] at hn
    obtain ⟨h2, h3, h4, h8, h10, h11, h12, h13⟩ := hn
    simp [EveryDayAuto.STATUS_DICT, SLA.STATUS_DICT, h2, h3, h4, h8, h10,
      h11, h12, h13]

/-- Witness for the amended C8, at the unknown code 5. -/
theorem status_dictionaries_agree_except_12_witness :
    EveryDayAuto.STATUS_DICT 5 = SLA.STATUS_DICT 5
    ∧ EveryDayAuto.STATUS_DICT 5 = none
    ∧ SLA.STATUS_DICT 5 = none :=
  ⟨status_dictionaries_agree_except_12.2.2.1 5 (by decide),
   (status_dictionaries_agree_except_12.2.2.2 5 (by decide)).1,
   (status_dictionaries_agree_except_12.2.2.2 5 (by decide)).2⟩

/-- Claim C10: the module prologue deletes the whole `saveАвто` output
directory (stale reports included) before logging is configured and
before any client is processed; when the directory is absent the
`shutil.rmtree` call raises `FileNotFoundError` and the program dies
without running any reconciliation. -/
theorem startup_cleanup (fs : FS) (today : DateTime)
    (parse : String → Option DateTime) (fsWrite : String → Except Err Unit)
    (fetchRaw : Int → DateTime → DateTime → Except Err (List Row)) :
    ("saveАвто" ∉ fs.dirs →
      moduleRun fs today parse fsWrite fetchRaw
        = .error (.fileNotFound "saveАвто"))
    ∧ ("saveАвто" ∈ fs.dirs →
      ∃ fs1, moduleRun fs today parse fsWrite fetchRaw
          = .ok (fs1, Event.removedOutputDir :: Event.configuredLogging ::
              activateEvents (activate today parse fsWrite fetchRaw))
        ∧ fs1.files.filter (fun f => decide (f.1 = "saveАвто")) = []
        ∧ "saveАвто" ∉ fs1.dirs) := by
  constructor
  · intro h
    unfold moduleRun rmtree
    rw [if_neg h]
  · intro h
    unfold moduleRun rmtree
    rw [if_pos h]
    refine ⟨_, rfl, ?_, ?_⟩
    · rw [List.filter_filter]
      apply List.filter_eq_nil_iff.2
      intro a _
      simp
    · intro hmem
      have := List.of_mem_filter hmem
      simp at this

/-- Witness for C10: a filesystem holding a stale report, and one without
the output directory. -/
theorem startup_cleanup_witness :
    ("saveАвто" ∉ emptyFS.dirs
      ∧ moduleRun emptyFS sampleToday sampleParse okWrite sampleFetch
          = .error (.fileNotFound "saveАвто"))
    ∧ ("saveАвто" ∈ sampleFS.dirs
      ∧ ∃ fs1, moduleRun sampleFS sampleToday sampleParse okWrite sampleFetch
            = .ok (fs1, Event.removedOutputDir :: Event.configuredLogging ::
                activateEvents (activate sampleToday sampleParse okWrite sampleFetch))
          ∧ fs1.files.filter (fun f => decide (f.1 = "saveАвто")) = []
          ∧ "saveАвто" ∉ fs1.dirs) :=
  ⟨⟨by decide,
    (startup_cleanup emptyFS sampleToday sampleParse okWrite sampleFetch).1
      (by decide)⟩,
   ⟨by decide,
    (startup_cleanup sampleFS sampleToday sampleParse okWrite sampleFetch).2
      (by decide)⟩⟩

/-- Claim C6: `result_save` writes no file and raises nothing whenever the
frame is empty, a required output column is absent, or the `client_id`
column (the only way the code resolves the client identifier) is absent;
each case is a reported early return. -/
theorem report_writer_skips (fsWrite : String → Except Err Unit) (DF : Frame)
    (client_name : Option String) (start_date end_date : DateTime)
    (h : DF.rows = []
      ∨ selected_columns.filter (fun c => decide (c ∉ DF.cols)) ≠ []
      ∨ "client_id" ∉ DF.cols) :
    ∃ o, result_save fsWrite DF client_name start_date end_date = .ok o
      ∧ writtenFiles o = [] := by
  unfold result_save
  rcases hr : DF.rows with _ | ⟨r, rs⟩
  · exact ⟨.skippedEmpty, rfl, rfl⟩
  · rcases h with h | h | h
    · rw [hr] at h
      cases h
    · rw [if_pos h]
      exact ⟨_, rfl, rfl⟩
    · by_cases hm : selected_columns.filter (fun c => decide (c ∉ DF.cols)) ≠ []
      · rw [if_pos hm]
        exact ⟨_, rfl, rfl⟩
      · rw [if_neg hm, if_neg h]
        exact ⟨.skippedNoClientId, rfl, rfl⟩

/-- Witness for C6: the empty runner frame. -/
theorem report_writer_skips_witness :
    emptyFrame.rows = []
    ∧ ∃ o, result_save okWrite emptyFrame none sampleStart sampleEnd = .ok o
        ∧ writtenFiles o = [] :=
  ⟨rfl, report_writer_skips okWrite emptyFrame none sampleStart sampleEnd
    (Or.inl rfl)⟩

theorem inWindow_iff (s e : DateTime) (v : Option DateTime) :
    inWindow s e v = true ↔ ∃ t, v = some t ∧ s ≤ t ∧ t < e := by
  cases v <;> simp [inWindow]

/-- Claim C5: when `filter_data_time` succeeds, its output is exactly the
set of reworked rows whose window-column value (sub-seconds stripped,
offset added) lies in `[start_date, end_date)` and whose translated
status is the label "Succeed" — every output row satisfies both, and no
other row appears. -/
theorem time_filter_characterisation (parse : String → Option DateTime)
    (start_date end_date : DateTime) (df : List Row) (filter_column : String)
    (out : List FRow) (name : Option String) (un_c : Int) (cfg : ClientConfig)
    (getCol : FRow → Option DateTime)
    (huc : (df.map (·.client_id)).head? = some un_c)
    (hcfg : clientsLookup un_c = some cfg)
    (hcol : timeColFn filter_column = .ok getCol)
    (h : filter_data_time parse start_date end_date df filter_column
        = .ok (out, name)) :
    out = (transformRows parse cfg.plus_time df).filter
        (fun r => decide (r.status_name = .label "Succeed")
          && inWindow start_date end_date (getCol r))
    ∧ ∀ r ∈ out,
        (∃ t, getCol r = some t ∧ start_date ≤ t ∧ t < end_date)
        ∧ r.status_name = .label "Succeed" := by
  unfold filter_data_time at h
  simp only [huc, hcfg, hcol] at h
  rw [Except.ok.injEq, Prod.mk.injEq] at h
  obtain ⟨hout, -⟩ := h
  constructor
  · rw [← hout, List.filter_filter]
  · intro r hr
    rw [← hout] at hr
    rw [List.mem_filter] at hr
    obtain ⟨hr1, hr2⟩ := hr
    rw [List.mem_filter] at hr1
    exact ⟨(inWindow_iff _ _ _).1 hr1.2, of_decide_eq_true hr2⟩

/-- Witness for C5: the sample pipeline input, client 1282, offset 0. -/
theorem time_filter_characterisation_witness :
    (filter_data_time sampleParse sampleStart sampleEnd
        [normRow sampleRow] "accepted_at"
      = .ok ([transformRow sampleParse 0 (normRow sampleRow)],
             some "TestClient"))
    ∧ ∀ r ∈ [transformRow sampleParse 0 (normRow sampleRow)],
        (∃ t, r.accepted_at = some t ∧ sampleStart ≤ t ∧ t < sampleEnd)
        ∧ r.status_name = .label "Succeed" :=
  ⟨rfl,
   (time_filter_characterisation sampleParse sampleStart sampleEnd
      [normRow sampleRow] "accepted_at"
      [transformRow sampleParse 0 (normRow sampleRow)] (some "TestClient")
      1282 ⟨"accepted_at", 0⟩ (·.accepted_at)
      rfl rfl rfl rfl).2⟩

/-- Claim C9: when `filter_data_time` succeeds, the resolved display name
is computed by `resolveName` over the client names of the time-filtered
rows (before the status filter), and `resolveName` is a total function
that returns the unique distinct value when there is exactly one, and the
sentinel "DEFAULT" otherwise (zero or several distinct values) — it can
never raise. -/
theorem display_name_resolution (parse : String → Option DateTime)
    (start_date end_date : DateTime) (df : List Row) (filter_column : String)
    (out : List FRow) (name : Option String) (un_c : Int) (cfg : ClientConfig)
    (getCol : FRow → Option DateTime)
    (huc : (df.map (·.client_id)).head? = some un_c)
    (hcfg : clientsLookup un_c = some cfg)
    (hcol : timeColFn filter_column = .ok getCol)
    (h : filter_data_time parse start_date end_date df filter_column
        = .ok (out, name)) :
    name = resolveName
        (((transformRows parse cfg.plus_time df).filter
            (fun r => inWindow start_date end_date (getCol r))).map
          (·.client_name))
    ∧ ∀ ns : List (Option String),
        ((uniqueList ns).length = 1 →
          ∃ v, uniqueList ns = [v] ∧ resolveName ns = v)
        ∧ ((uniqueList ns).length ≠ 1 → resolveName ns = some "DEFAULT") := by
  unfold filter_data_time at h
  simp only [huc, hcfg, hcol] at h
  rw [Except.ok.injEq, Prod.mk.injEq] at h
  obtain ⟨-, hname⟩ := h
  refine ⟨hname.symm, ?_⟩
  intro ns
  unfold resolveName
  rcases hu : uniqueList ns with _ | ⟨v, _ | ⟨w, t⟩⟩
  · exact ⟨by simp, fun _ => rfl⟩
  · exact ⟨fun _ => ⟨v, rfl, rfl⟩, fun hlen => absurd rfl hlen⟩
  · exact ⟨by simp, fun _ => rfl⟩

/-- Witness for C9: the sample input resolves the unique name
"TestClient"; a two-name list falls back to the sentinel. -/
theorem display_name_resolution_witness :
    ((some "TestClient" : Option String)
        = resolveName (((transformRows sampleParse 0 [normRow sampleRow]).filter
            (fun r => inWindow sampleStart sampleEnd r.accepted_at)).map
          (·.client_name)))
    ∧ ((uniqueList [some "A", some "B"]).length ≠ 1 →
        resolveName [some "A", some "B"] = some "DEFAULT") :=
  ⟨(display_name_resolution sampleParse sampleStart sampleEnd
      [normRow sampleRow] "accepted_at"
      [transformRow sampleParse 0 (normRow sampleRow)] (some "TestClient")
      1282 ⟨"accepted_at", 0⟩ (·.accepted_at) rfl rfl rfl rfl).1,
   ((display_name_resolution sampleParse sampleStart sampleEnd
      [normRow sampleRow] "accepted_at"
      [transformRow sampleParse 0 (normRow sampleRow)] (some "TestClient")
      1282 ⟨"accepted_at", 0⟩ (·.accepted_at) rfl rfl rfl rfl).2
      [some "A", some "B"]).2⟩

theorem mem_dedupExternal {r : Row} :
    ∀ {l : List Row} {seen : List String}, r ∈ dedupExternal l seen → r ∈ l
  | [], _, h => absurd h (List.not_mem_nil r)
  | x :: xs, seen, h => by
    unfold dedupExternal at h
    by_cases hx : x.external_id ∈ seen
    · rw [if_pos hx] at h
      exact List.mem_cons_of_mem x (mem_dedupExternal h)
    · rw [if_neg hx] at h
      rcases List.mem_cons.1 h with h | h
      · exact h ▸ List.mem_cons_self x xs
      · exact List.mem_cons_of_mem x (mem_dedupExternal h)

theorem mem_sortRows {cf : String} {r : Row} {l : List Row} :
    r ∈ sortRows cf l ↔ r ∈ l :=
  List.mem_insertionSort (rowLE cf)

theorem normRow_overall (r : Row) :
    (normRow r).overall_commission
      = some (round3 (((normRow r).mid_commission
          + (normRow r).service_commission)
        * ((normRow r).accepted_amount / 100))) := rfl

/-- Claim C7: every row produced by `set_new_col` carries
`overall_commission = round((mid_commission + service_commission) *
accepted_amount / 100, 3)` (exact over ℚ; the two groupings agree), and
that value is non-negative whenever the three inputs are. -/
theorem commission_formula (cf : String) (df out : List Row) (r : Row)
    (h : set_new_col cf df = .ok out) (hr : r ∈ out) :
    r.overall_commission = some (round3
      ((r.mid_commission + r.service_commission) * r.accepted_amount / 100))
    ∧ (0 ≤ r.mid_commission → 0 ≤ r.service_commission →
        0 ≤ r.accepted_amount →
        0 ≤ round3 ((r.mid_commission + r.service_commission)
          * r.accepted_amount / 100)) := by
  unfold set_new_col at h
  split at h
  · rw [Except.ok.injEq] at h
    subst h
    rw [mem_sortRows] at hr
    have hr2 := mem_dedupExternal hr
    rw [List.mem_map] at hr2
    obtain ⟨r0, -, hr0⟩ := hr2
    subst hr0
    constructor
    · rw [normRow_overall, mul_div_assoc]
    · intro h1 h2 h3
      apply round3_nonneg
      have hm : (0 : ℚ) ≤ ((normRow r0).mid_commission
          + (normRow r0).service_commission) * (normRow r0).accepted_amount :=
        mul_nonneg (add_nonneg h1 h2) h3
      exact div_nonneg hm (by norm_num)
  · exact absurd h (by simp)

/-- Witness for C7: evaluated at the sample row (commissions 2 and 1,
accepted amount 100). -/
theorem commission_formula_witness :
    (normRow sampleRow).overall_commission = some (round3
      (((normRow sampleRow).mid_commission
          + (normRow sampleRow).service_commission)
        * (normRow sampleRow).accepted_amount / 100))
    ∧ 0 ≤ round3 (((normRow sampleRow).mid_commission
          + (normRow sampleRow).service_commission)
        * (normRow sampleRow).accepted_amount / 100) :=
  ⟨(commission_formula "accepted_at" [sampleRow] [normRow sampleRow]
      (normRow sampleRow) rfl (List.mem_singleton.2 rfl)).1,
   (commission_formula "accepted_at" [sampleRow] [normRow sampleRow]
      (normRow sampleRow) rfl (List.mem_singleton.2 rfl)).2
      (by decide) (by decide) (by decide)⟩

theorem mapStatus_mapStatus (v : StatusVal) :
    mapStatus (mapStatus v) = .missing := by
  cases v with
  | code n =>
    rcases h : EveryDayAuto.STATUS_DICT n with _ | l <;> simp [mapStatus, h]
  | label s => rfl
  | missing => rfl

theorem normRow_normRow (r : Row) :
    normRow (normRow r) = killStatus (normRow r) := by
  cases r with
  | mk ext cord cid cur cat aat amt aamt sc mc st cm ty pv mid cn curn tt oc =>
    simp only [normRow, commissionRow, translateRow, fixAmount, killStatus,
      overallOf, mapStatus_mapStatus]
    split_ifs <;> simp_all [mapStatus_mapStatus]

theorem dedupExternal_keys :
    ∀ (l : List Row) (seen : List String),
      ((dedupExternal l seen).map (·.external_id)).Nodup
      ∧ ∀ x ∈ dedupExternal l seen, x.external_id ∉ seen
  | [], seen => by simp [dedupExternal]
  | r :: rs, seen => by
    unfold dedupExternal
    by_cases hx : r.external_id ∈ seen
    · rw [if_pos hx]
      exact dedupExternal_keys rs seen
    · rw [if_neg hx]
      obtain ⟨ih1, ih2⟩ := dedupExternal_keys rs (r.external_id :: seen)
      refine ⟨List.nodup_cons.2 ⟨?_, ih1⟩, ?_⟩
      · intro hmem
        rw [List.mem_map] at hmem
        obtain ⟨x, hx1, hx2⟩ := hmem
        exact (ih2 x hx1) (hx2 ▸ List.mem_cons_self _ _)
      · intro x hxm
        rcases List.mem_cons.1 hxm with h | h
        · exact h ▸ hx
        · exact fun hs => (ih2 x h) (List.mem_cons_of_mem _ hs)

theorem dedupExternal_eq_self :
    ∀ (l : List Row) (seen : List String),
      (l.map (·.external_id)).Nodup →
      (∀ x ∈ l, x.external_id ∉ seen) →
      dedupExternal l seen = l
  | [], _, _, _ => rfl
  | r :: rs, seen, hnodup, hseen => by
    unfold dedupExternal
    rw [if_neg (hseen r (List.mem_cons_self _ _))]
    rw [List.map_cons, List.nodup_cons] at hnodup
    congr 1
    apply dedupExternal_eq_self rs _ hnodup.2
    intro x hx hmem
    rcases List.mem_cons.1 hmem with h | h
    · exact hnodup.1 (h ▸ List.mem_map_of_mem (·.external_id) hx)
    · exact hseen x (List.mem_cons_of_mem _ hx) h

theorem rowKey_killStatus (cf : String) (r : Row) :
    rowKey cf (killStatus r) = rowKey cf r := rfl

theorem set_new_col_reapplied_eq (cf : String) (df out : List Row)
    (h : set_new_col cf df = .ok out) :
    set_new_col cf out = .ok (out.map killStatus) := by
  unfold set_new_col at h ⊢
  split at h
  case isFalse hv => exact absurd h (by simp)
  case isTrue hv =>
    rw [Except.ok.injEq] at h
    subst h
    rw [if_pos hv, Except.ok.injEq]
    have hmap : (sortRows cf (dedupExternal (df.map normRow) [])).map normRow
        = (sortRows cf (dedupExternal (df.map normRow) [])).map killStatus := by
      apply List.map_congr_left
      intro r hr
      rw [mem_sortRows] at hr
      have hr2 := mem_dedupExternal hr
      rw [List.mem_map] at hr2
      obtain ⟨r0, -, hr0⟩ := hr2
      subst hr0
      exact normRow_normRow r0
    rw [hmap]
    have hperm : List.Perm (sortRows cf (dedupExternal (df.map normRow) []))
        (dedupExternal (df.map normRow) []) := List.perm_insertionSort _ _
    have hkeys : (((sortRows cf (dedupExternal (df.map normRow) [])).map
        killStatus).map (·.external_id)).Nodup := by
      rw [List.map_map]
      exact ((hperm.map (·.external_id)).nodup_iff).2
        (dedupExternal_keys (df.map normRow) []).1
    rw [dedupExternal_eq_self _ _ hkeys (by simp)]
    apply List.Sorted.insertionSort_eq
    have hs : List.Sorted (rowLE cf)
        (sortRows cf (dedupExternal (df.map normRow) [])) :=
      List.sorted_insertionSort _ _
    exact List.pairwise_map.2 (hs.imp fun hab => hab)

theorem set_new_col_sorted (cf : String) (df out : List Row)
    (h : set_new_col cf df = .ok out) :
    List.Sorted (rowLE cf) out := by
  unfold set_new_col at h
  split at h
  case isFalse hv => exact absurd h (by simp)
  case isTrue hv =>
    rw [Except.ok.injEq] at h
    subst h
    exact List.sorted_insertionSort _ _

/-- Amended C3: re-running `set_new_col` on its own output preserves the
rows as a multiset up to the status column — every row of the second
output is a row of the first with `status_name` turned to missing (the
second status map sends every already-translated label and every missing
value to missing, because the dictionary only has integer keys) and every
other column value unchanged; no row is added or removed (there are no
new `external_id` duplicates); the sequence of sort-key values is
unchanged and the result is again sorted on the configured column, so at
most rows tied on that column are reordered (the pandas default sort is
unstable, so tie order is not guaranteed). -/
theorem normalize_reapplied (cf : String) (df out : List Row)
    (h : set_new_col cf df = .ok out) :
    ∃ out2, set_new_col cf out = .ok out2
      ∧ List.Perm out2 (out.map killStatus)
      ∧ out2.map (rowKey cf) = out.map (rowKey cf)
      ∧ List.Sorted (rowLE cf) out2 := by
  refine ⟨out.map killStatus, set_new_col_reapplied_eq cf df out h,
    List.Perm.refl _, ?_, ?_⟩
  · rw [List.map_map]
    exact List.map_congr_left fun r _ => rowKey_killStatus cf r
  · have hs := set_new_col_sorted cf df out h
    exact List.pairwise_map.2 (hs.imp fun hab => hab)

/-- Counterexample for C3: normalization is not idempotent on column
values.  One pass turns status code 4 into the label "Succeed"; a second
pass maps the label through the integer-keyed dictionary and produces
missing, so a column value of a row changed. -/
theorem normalize_not_idempotent_counterexample :
    set_new_col "accepted_at" [sampleRow] = .ok [normRow sampleRow]
    ∧ set_new_col "accepted_at" [normRow sampleRow]
        = .ok [normRow (normRow sampleRow)]
    ∧ (normRow sampleRow).status_name = .label "Succeed"
    ∧ (normRow (normRow sampleRow)).status_name = .missing
    ∧ normRow (normRow sampleRow) ≠ normRow sampleRow := by
  refine ⟨rfl, rfl, rfl, rfl, ?_⟩
  intro h
  have h2 := congrArg (fun r : Row => r.status_name) h
  exact StatusVal.noConfusion h2

/-- Witness for the amended C3, at the one-row sample frame. -/
theorem normalize_reapplied_witness :
    set_new_col "accepted_at" [sampleRow] = .ok [normRow sampleRow]
    ∧ ∃ out2, set_new_col "accepted_at" [normRow sampleRow] = .ok out2
        ∧ List.Perm out2 ([normRow sampleRow].map killStatus)
        ∧ out2.map (rowKey "accepted_at")
            = [normRow sampleRow].map (rowKey "accepted_at")
        ∧ List.Sorted (rowLE "accepted_at") out2 :=
  ⟨rfl, normalize_reapplied "accepted_at" [sampleRow] [normRow sampleRow] rfl⟩

/-- Counterexample for C1: with a healthy fetch for the first configured
client (1282) and a file write that fails with an I/O error, the
exception raised inside `result_save` propagates out of the `activate`
loop: the run aborts at the first client, the remaining seven configured
clients are never processed, and no failure is caught at any client
boundary. -/
theorem run_isolation_counterexample :
    activate sampleToday sampleParse failingWrite sampleFetch
      = ([], some (.ioError "disk full"))
    ∧ EveryDayAuto.CLIENTS.length = 8 := ⟨rfl, rfl⟩

/-- Amended C1: only the extraction step is isolated per client —
`create_df` swallows any fetch failure and returns an empty frame, which
the loop skips — while an error raised in normalization, time filtering
or the file write propagates out of the loop: the run ends with that
error and every client after the failing one is left unprocessed. -/
theorem run_isolation (today : DateTime) (parse : String → Option DateTime)
    (fsWrite : String → Except Err Unit)
    (fetchRaw : Int → DateTime → DateTime → Except Err (List Row)) :
    (∀ (cid : Int) (config : ClientConfig) (e1 : Err),
      fetchRaw cid (runnerWindow today).1 (runnerWindow today).2 = .error e1 →
      processClient today parse fsWrite fetchRaw cid config = .ok .noData)
    ∧ (∀ (t1 : List (Int × ClientConfig)) (cid : Int) (config : ClientConfig)
        (t2 : List (Int × ClientConfig)) (e1 : Err),
      (∀ p ∈ t1, ∃ r, processClient today parse fsWrite fetchRaw p.1 p.2
          = .ok r) →
      processClient today parse fsWrite fetchRaw cid config = .error e1 →
      (runOn today parse fsWrite fetchRaw (t1 ++ (cid, config) :: t2)).2
          = some e1
      ∧ (runOn today parse fsWrite fetchRaw
            (t1 ++ (cid, config) :: t2)).1.map Prod.fst
          = t1.map Prod.fst) := by
  constructor
  · intro cid config e1 hf
    unfold processClient create_df
    simp only [hf]
    rfl
  · intro t1
    induction t1 with
    | nil =>
      intro cid config t2 e1 _ herr
      rw [List.nil_append]
      unfold runOn
      simp [herr]
    | cons p ps ih =>
      intro cid config t2 e1 hok herr
      obtain ⟨r, hr⟩ := hok p (List.mem_cons_self _ _)
      obtain ⟨c1, c2⟩ := p
      rw [List.cons_append]
      unfold runOn
      simp only [hr]
      have hih := ih cid config t2 e1
        (fun q hq => hok q (List.mem_cons_of_mem _ hq)) herr
      exact ⟨hih.1, by simp [hih.2]⟩

/-- Witness for the amended C1: a failing fetch yields a skipped client;
the sample failing write aborts a one-client run with the I/O error. -/
theorem run_isolation_witness :
    processClient sampleToday sampleParse okWrite failingFetch 1282
        ⟨"accepted_at", 0⟩ = .ok .noData
    ∧ (runOn sampleToday sampleParse failingWrite sampleFetch
          ([] ++ (1282, ⟨"accepted_at", 0⟩) :: [])).2
        = some (.ioError "disk full") :=
  ⟨(run_isolation sampleToday sampleParse okWrite failingFetch).1
      1282 ⟨"accepted_at", 0⟩ (.ioError "db down") rfl,
   ((run_isolation sampleToday sampleParse failingWrite sampleFetch).2
      [] 1282 ⟨"accepted_at", 0⟩ [] (.ioError "disk full")
      (by simp) rfl).1⟩
